import Mathlib

/-!
Shallow embedding of the odoo-proxy-server relay.

The repository contains two near-duplicate Express servers:
  variant A = src/server.js
  variant B = src/unnamed/part_000
Both expose POST /api/login and POST /api/odoo behind an X-API-Key check.
Handlers are embedded as pure functions: the HTTP request (headers, parsed
JSON body), the process environment (API_KEY, ODOO_URL), the current value
of the module-level variable odooSessionCookie, and the outcome of the one
axios.post call are explicit parameters; the result records the HTTP
response sent (none when the handler threw after the axios call and no
response was ever sent), the session-cookie variable after the handler
ran, whether axios.post was invoked, and the JSON-RPC payload that would
have been sent.

JavaScript values arriving in JSON bodies are modelled by the Json type
below; absent object fields are Option.none, and JavaScript truthiness is
Json.truthy. Property access on a non-object is modelled as returning
undefined (none) where the source cannot dereference null or undefined;
the places where it can are modelled explicitly: the variant B login
error branch (error.response on an undefined or null error value), the
four catch blocks reading error.response.data.error when the non-2xx JSON
body is null (the TypeError escapes the async handler and no response is
sent), and the variant A login reading data.result when the 2xx body is
JSON null (the TypeError is caught in the same try and answered 500).
-/

/-- Model of a parsed JSON value as JavaScript sees it. -/
inductive Json where
  | null
  | bool (b : Bool)
  | num (n : Int)
  | str (s : String)
  | arr (elems : List Json)
  | obj (fields : List (String × Json))

/-- Property lookup: field access on an object, undefined (none) otherwise. -/
def Json.fieldOpt : Json → String → Option Json
  | .obj fs, k => fs.lookup k
  | _, _ => none

/-- JavaScript truthiness of a JSON value. -/
def Json.truthy : Json → Bool
  | .null => false
  | .bool b => b
  | .num n => n != 0
  | .str s => s != ""
  | .arr _ => true
  | .obj _ => true

/-- Test for the JSON null literal: the one value whose property access
throws a TypeError in JavaScript (undefined cannot occur as a parsed
axios body). -/
def Json.isNull : Json → Bool
  | .null => true
  | _ => false

/-- Truthiness of a possibly-undefined value (undefined is falsy). -/
def optTruthy : Option Json → Bool
  | none => false
  | some j => j.truthy

/-- Truthiness of a possibly-undefined string (undefined and "" are falsy). -/
def strOptTruthy : Option String → Bool
  | none => false
  | some s => s != ""

/-- Model of the JavaScript expression a || b where a may be undefined. -/
def jsOr (a : Option Json) (b : Json) : Json :=
  match a with
  | some j => if j.truthy then j else b
  | none => b

/-- Model of the JavaScript expression s || fallback on strings. -/
def strOr (s fallback : String) : String :=
  if s != "" then s else fallback

/-- JSON error body, as built by res.json with an error field. -/
def errBody (s : String) : Json := Json.obj [("error", Json.str s)]

/-- An HTTP response sent to the caller: status code and JSON body. -/
structure HttpResponse where
  status : Nat
  body : Json

/-- Status of a possibly-unsent response: none when the handler never
answered the request. -/
def statusOf : Option HttpResponse → Option Nat
  | none => none
  | some r => some r.status

/-- Outcome of the single axios.post call a handler makes.  axios resolves
on a 2xx status (ok, carrying the parsed body and any set-cookie header
list), rejects with error.response on a non-2xx status (errResponse), and
rejects without error.response on timeout or connection failure
(errNetwork, carrying error.message). -/
inductive AxiosResult where
  | ok (status : Nat) (data : Json) (setCookie : Option (List String))
  | errResponse (status : Nat) (data : Json)
  | errNetwork (message : String)

/-- Model of the verifyApiKey middleware (both variants, identical code):
next() is called iff the x-api-key header is present, truthy, and strictly
equal to process.env.API_KEY; otherwise the middleware answers 403.
Source: src/server.js lines 39-46, src/unnamed/part_000 lines 21-28. -/
def verifyApiKey (apiKey clientKey : Option String) : Bool :=
  match clientKey with
  | none => false
  | some s => s != "" && apiKey == some s

/-- The odooConfig object of a request body.  Fields may hold any JSON
value; an absent field is none. -/
structure OdooConfig where
  url : Option Json
  db : Option Json
  username : Option Json
  password : Option Json

/-- Parsed body of a POST /api/login request. -/
structure LoginBody where
  odooConfig : Option OdooConfig
  id : Option Json

/-- The params object of the login JSON-RPC envelope. -/
structure AuthParams where
  db : Json
  login : Json
  password : Json

/-- The login JSON-RPC envelope POSTed to /web/session/authenticate. -/
structure AuthPayload where
  jsonrpc : String
  method : String
  params : AuthParams
  id : Json

/-- Result of running a login handler: the HTTP response (none when the
handler threw out of its catch block and never answered), the value of the
odooSessionCookie variable afterwards, whether axios.post was invoked, and
the envelope that was (or would have been) sent. Variant A stores the
cookie as a single joined string. -/
structure LoginResultA where
  response : Option HttpResponse
  cookie : Option String
  upstreamCalled : Bool
  payload : Option AuthPayload

/-- Characters of a cookie string up to (excluding) the first semicolon:
the JavaScript expression cookie.split(";")[0]. -/
def firstCookiePart (chars : List Char) : List Char :=
  match chars with
  | [] => []
  | c :: rest => if c = ';' then [] else c :: firstCookiePart rest

/-- Normalization in variant A: each Set-Cookie entry truncated at its
first semicolon, results joined with a semicolon-blank separator.
Source: src/server.js line 90. -/
def normalizeSetCookie (l : List String) : String :=
  String.intercalate "; " (l.map (fun cookie => String.mk (firstCookiePart cookie.data)))

/-- Cookie capture in variant A (src/server.js lines 87-94): when the
response carries a set-cookie header the normalized join overwrites the
stored cookie, otherwise the prior value is kept. -/
def captureA (setCookie : Option (List String)) (prev : Option String) : Option String :=
  match setCookie with
  | some l => some (normalizeSetCookie l)
  | none => prev

/-- Login handler of variant A, src/server.js lines 49-118.  Two throwing
paths are modelled: a 2xx JSON-null body makes line 100 read null.result,
a TypeError caught by the catch, whose error has no response field, so the
caller gets 500 with the TypeError message (the cookie capture at lines
87-94 has already run); a non-2xx JSON-null body makes the catch itself
read null.error at line 113, and that TypeError has no enclosing try, so
no response is ever sent. -/
def apiLoginA (apiKey clientKey : Option String) (body : LoginBody)
    (upstream : AxiosResult) (prev : Option String) : LoginResultA :=
  if verifyApiKey apiKey clientKey = false then
    ⟨some ⟨403, errBody "Unauthorized: Invalid API key"⟩, prev, false, none⟩
  else
    match body.odooConfig with
    | none =>
      ⟨some ⟨400, errBody "Missing Odoo configuration (url, db, username, password)"⟩,
        prev, false, none⟩
    | some cfg =>
      if (optTruthy cfg.db && optTruthy cfg.username && optTruthy cfg.password
          && optTruthy cfg.url) = false then
        ⟨some ⟨400, errBody "Missing Odoo configuration (url, db, username, password)"⟩,
          prev, false, none⟩
      else
        let payload : AuthPayload :=
          ⟨"2.0", "call", ⟨cfg.db.getD .null, cfg.username.getD .null, cfg.password.getD .null⟩,
            .num 1⟩
        match upstream with
        | .ok _ data setCookie =>
          if data.isNull = true then
            ⟨some ⟨500, errBody "Cannot read properties of null (reading 'result')"⟩,
              captureA setCookie prev, true, some payload⟩
          else if (optTruthy (data.fieldOpt "result")
              && optTruthy (((data.fieldOpt "result").getD .null).fieldOpt "uid")) = true then
            ⟨some ⟨200, .obj [("result",
                ((((data.fieldOpt "result").getD .null).fieldOpt "uid").getD .null))]⟩,
              captureA setCookie prev, true, some payload⟩
          else if optTruthy (data.fieldOpt "error") = true then
            ⟨some ⟨401, .obj [("error",
                jsOr (((data.fieldOpt "error").getD .null).fieldOpt "message")
                  (.str "Odoo authentication failed"))]⟩,
              captureA setCookie prev, true, some payload⟩
          else
            ⟨some ⟨500, errBody "Unexpected Odoo login response"⟩,
              captureA setCookie prev, true, some payload⟩
        | .errResponse s d =>
          if d.isNull = true then
            ⟨none, prev, true, some payload⟩
          else
            ⟨some ⟨s, .obj [("error", jsOr (d.fieldOpt "error") (.str "Odoo login API error"))]⟩,
              prev, true, some payload⟩
        | .errNetwork m =>
          ⟨some ⟨500, errBody (strOr m "Internal Server Error during Odoo login API call")⟩,
            prev, true, some payload⟩

/-- Result of running the variant B login handler.  Variant B stores the
raw set-cookie header list in odooSessionCookie, not a joined string; the
response is none when the catch block itself threw and never answered. -/
structure LoginResultB where
  response : Option HttpResponse
  cookie : Option (List String)
  upstreamCalled : Bool
  payload : Option AuthPayload

/-- Cookie capture in variant B (src/unnamed/part_000 lines 69-75): the
raw set-cookie list overwrites the stored value when present (a JavaScript
array is always truthy); otherwise the prior value is kept. -/
def captureB (setCookie : Option (List String)) (prev : Option (List String)) :
    Option (List String) :=
  match setCookie with
  | some l => some l
  | none => prev

/-- Status taken from error.response.status by res.status.  Only a numeric
JSON value is meaningful there; a non-numeric value is modelled as 500
(express coercion of a malformed status is outside the claims). -/
def jsStatusNat : Option Json → Nat
  | some (.num n) => n.toNat
  | _ => 500

/-- Error branch of the variant B login handler, src/unnamed/part_000
lines 81-87, reached when the 2xx body does not carry a truthy uid:
  const error = response.data && response.data.error;
  const errorMsg = (error && error.message) || "Authentication failed";
  return res.status(error.response ? error.response.status : 500)
    .json(... error: "Authentication failed", details: errorMsg ...);
When error is undefined or null, error.response throws a TypeError that is
caught by the surrounding catch, which answers 500 with the TypeError
message, since the thrown error has no response field. -/
def loginBErrorBranch (data : Json) : HttpResponse :=
  match (if data.truthy then data.fieldOpt "error" else some data) with
  | none => ⟨500, errBody "Cannot read properties of undefined (reading 'response')"⟩
  | some .null => ⟨500, errBody "Cannot read properties of null (reading 'response')"⟩
  | some ej =>
    ⟨(if optTruthy (ej.fieldOpt "response") = true then
        jsStatusNat (((ej.fieldOpt "response").getD .null).fieldOpt "status")
      else 500),
      .obj [("error", Json.str "Authentication failed"),
        ("details",
          (if ej.truthy then jsOr (ej.fieldOpt "message") (.str "Authentication failed")
           else .str "Authentication failed"))]⟩

/-- Login handler of variant B, src/unnamed/part_000 lines 31-98.  genId
models the Math.floor(Math.random() * 1000) fallback correlation id, made
an explicit parameter; the target URL is built from the ODOO_URL
environment variable without any check, so it does not influence the
modelled control flow (the axios outcome parameter already covers an
unreachable address).  When the upstream answers non-2xx with a JSON-null
body, the catch block reads null.error at line 93; the TypeError has no
enclosing try, so no response is ever sent. -/
def apiLoginB (apiKey clientKey : Option String) (body : LoginBody) (genId : Int)
    (upstream : AxiosResult) (prev : Option (List String)) : LoginResultB :=
  if verifyApiKey apiKey clientKey = false then
    ⟨some ⟨403, errBody "Unauthorized: Invalid API key"⟩, prev, false, none⟩
  else
    match body.odooConfig with
    | none =>
      ⟨some ⟨400, errBody "Missing required fields for Odoo login"⟩, prev, false, none⟩
    | some cfg =>
      if (optTruthy cfg.db && optTruthy cfg.username && optTruthy cfg.password) = false then
        ⟨some ⟨400, errBody "Missing required fields for Odoo login"⟩, prev, false, none⟩
      else
        let payload : AuthPayload :=
          ⟨"2.0", "call", ⟨cfg.db.getD .null, cfg.username.getD .null, cfg.password.getD .null⟩,
            jsOr body.id (.num genId)⟩
        match upstream with
        | .ok _ data setCookie =>
          if (data.truthy && optTruthy (data.fieldOpt "result")
              && optTruthy (((data.fieldOpt "result").getD .null).fieldOpt "uid")) = true then
            ⟨some ⟨200, .obj [("result",
                ((((data.fieldOpt "result").getD .null).fieldOpt "uid").getD .null))]⟩,
              captureB setCookie prev, true, some payload⟩
          else
            ⟨some (loginBErrorBranch data), captureB setCookie prev, true, some payload⟩
        | .errResponse s d =>
          if d.isNull = true then
            ⟨none, prev, true, some payload⟩
          else
            ⟨some ⟨s, .obj [("error", jsOr (d.fieldOpt "error") (.str "Odoo login error"))]⟩,
              prev, true, some payload⟩
        | .errNetwork m =>
          ⟨some ⟨500, errBody (strOr m "Internal Server Error during login")⟩,
            prev, true, some payload⟩

/-- Parsed body of a POST /api/odoo request.  Variant A reads odooConfig
(for the target url), model, method, args, kwargs; variant B additionally
reads uid and id and ignores odooConfig. -/
structure OdooBody where
  odooConfig : Option OdooConfig
  model : Option Json
  method : Option Json
  args : Option Json
  kwargs : Option Json
  uid : Option Json
  id : Option Json

/-- The params object of the call_kw JSON-RPC envelope; absent body fields
stay undefined and are dropped by JSON serialization. -/
structure CallKwParams where
  model : Option Json
  method : Option Json
  args : Option Json
  kwargs : Option Json

/-- The JSON-RPC envelope POSTed to /web/dataset/call_kw. -/
structure CallKwPayload where
  jsonrpc : String
  method : String
  params : CallKwParams
  id : Json

/-- Result of running the variant A /api/odoo handler.  sentCookie is the
value attached as the Cookie request header, none when no header was
attached (the handler never mutates odooSessionCookie); the response is
none when the catch block itself threw and never answered. -/
structure OdooResultA where
  response : Option HttpResponse
  upstreamCalled : Bool
  sentCookie : Option String
  payload : Option CallKwPayload

/-- Condition of the 400 guard in the variant A /api/odoo handler,
src/server.js line 128: no odooConfig object or a falsy odooConfig.url. -/
def odooUrlMissingA : OdooBody → Bool
  | ⟨none, _, _, _, _, _, _⟩ => true
  | ⟨some cfg, _, _, _, _, _, _⟩ => !(optTruthy cfg.url)

/-- /api/odoo handler of variant A, src/server.js lines 121-179.  Fails
401 without contacting upstream when the stored cookie is falsy, 400 when
the body lacks a truthy odooConfig.url; otherwise forwards with the stored
cookie attached and relays the upstream body verbatim on success.  When
the upstream answers non-2xx with a JSON-null body, the catch block reads
null.error at line 174; the TypeError has no enclosing try, so no response
is ever sent. -/
def apiOdooA (apiKey clientKey : Option String) (body : OdooBody)
    (upstream : AxiosResult) (cookie : Option String) : OdooResultA :=
  if verifyApiKey apiKey clientKey = false then
    ⟨some ⟨403, errBody "Unauthorized: Invalid API key"⟩, false, none, none⟩
  else if strOptTruthy cookie = false then
    ⟨some ⟨401, errBody "Unauthorized: No active Odoo session. Please log in."⟩,
      false, none, none⟩
  else if odooUrlMissingA body = true then
    ⟨some ⟨400, errBody "Missing Odoo URL in request body"⟩, false, none, none⟩
  else
    let payload : CallKwPayload :=
      ⟨"2.0", "call", ⟨body.model, body.method, body.args, body.kwargs⟩, .num 1⟩
    match upstream with
    | .ok _ data _ => ⟨some ⟨200, data⟩, true, cookie, some payload⟩
    | .errResponse s d =>
      if d.isNull = true then
        ⟨none, true, cookie, some payload⟩
      else
        ⟨some ⟨s, .obj [("error", jsOr (d.fieldOpt "error") (.str "Odoo API error"))]⟩,
          true, cookie, some payload⟩
    | .errNetwork m =>
      ⟨some ⟨500, errBody (strOr m "Internal Server Error during Odoo API call")⟩,
        true, cookie, some payload⟩

/-- Result of running the variant B /api/odoo handler; the stored cookie
is the raw list, attached as the Cookie header only when present; the
response is none when the catch block itself threw and never answered. -/
structure OdooResultB where
  response : Option HttpResponse
  upstreamCalled : Bool
  sentCookie : Option (List String)
  payload : Option CallKwPayload

/-- /api/odoo handler of variant B, src/unnamed/part_000 lines 101-165.
Fails 500 without contacting upstream when the ODOO_URL environment
variable is falsy, 400 when body.uid is falsy; otherwise forwards, adding
the Cookie header only when a stored cookie exists (a stored array is
always truthy), and relays the upstream body verbatim on success.  When
the upstream answers non-2xx with a JSON-null body, the catch block reads
null.error at line 160; the TypeError has no enclosing try, so no
response is ever sent. -/
def apiOdooB (apiKey clientKey : Option String) (odooUrlEnv : Option String)
    (body : OdooBody) (genId : Int) (upstream : AxiosResult)
    (cookie : Option (List String)) : OdooResultB :=
  if verifyApiKey apiKey clientKey = false then
    ⟨some ⟨403, errBody "Unauthorized: Invalid API key"⟩, false, none, none⟩
  else if strOptTruthy odooUrlEnv = false then
    ⟨some ⟨500, errBody "Server configuration error: Odoo URL not set."⟩, false, none, none⟩
  else if optTruthy body.uid = false then
    ⟨some ⟨400, errBody "User ID (UID) is required for Odoo API calls."⟩, false, none, none⟩
  else
    let payload : CallKwPayload :=
      ⟨"2.0", "call", ⟨body.model, body.method, body.args, body.kwargs⟩,
        jsOr body.id (.num genId)⟩
    match upstream with
    | .ok _ data _ => ⟨some ⟨200, data⟩, true, cookie, some payload⟩
    | .errResponse s d =>
      if d.isNull = true then
        ⟨none, true, cookie, some payload⟩
      else
        ⟨some ⟨s, .obj [("error", jsOr (d.fieldOpt "error") (.str "Odoo API error"))]⟩,
          true, cookie, some payload⟩
    | .errNetwork m =>
      ⟨some ⟨500, errBody (strOr m "Internal Server Error during Odoo API call")⟩,
        true, cookie, some payload⟩

/-- Helper: truthiness of a present value is the truthiness of the value. -/
lemma optTruthy_some (j : Json) : optTruthy (some j) = j.truthy := rfl

/-- Helper: truthiness of an absent value is false. -/
lemma optTruthy_none : optTruthy none = false := rfl

/-- Helper: the null literal is null. -/
lemma Json.isNull_null : Json.isNull Json.null = true := rfl

/-- Helper: a truthy JSON value is never the null literal. -/
lemma isNull_false_of_truthy (j : Json) (h : j.truthy = true) : j.isNull = false := by
  cases j <;> simp_all [Json.truthy, Json.isNull]

/-- Helper: the middleware rejects when the header is absent. -/
lemma verifyApiKey_absent (apiKey : Option String) : verifyApiKey apiKey none = false := rfl

/-- Helper: the middleware rejects when the header differs from the
configured secret. -/
lemma verifyApiKey_mismatch (k s : String) (hne : s ≠ k) :
    verifyApiKey (some k) (some s) = false := by
  show (s != "" && (some k == some s)) = false
  have h2 : ((some k : Option String) == some s) = false :=
    beq_eq_false_iff_ne.mpr (fun he => hne (Option.some.inj he).symm)
  rw [h2, Bool.and_false]

/-- Helper: with API_KEY unset, the middleware rejects every header. -/
lemma verifyApiKey_unset (clientKey : Option String) :
    verifyApiKey none clientKey = false := by
  cases clientKey with
  | none => rfl
  | some s =>
    show (s != "" && (none == some s)) = false
    rw [show ((none : Option String) == some s) = false from rfl, Bool.and_false]

/-- C1: for every inbound request to POST /api/login or POST /api/odoo
(both variants) whose X-API-Key header is absent or differs from the
configured secret, the server responds 403 with an error body, makes no
upstream call, and leaves the stored session cookie untouched. -/
theorem C1_invalid_key_rejected (apiKey clientKey : Option String)
    (lbody : LoginBody) (obody : OdooBody) (genId : Int) (up : AxiosResult)
    (odooUrlEnv : Option String) (ca : Option String) (cb : Option (List String))
    (h : clientKey = none ∨ ∃ s k, clientKey = some s ∧ apiKey = some k ∧ s ≠ k) :
    (apiLoginA apiKey clientKey lbody up ca).response
        = some ⟨403, errBody "Unauthorized: Invalid API key"⟩
    ∧ (apiLoginA apiKey clientKey lbody up ca).upstreamCalled = false
    ∧ (apiLoginA apiKey clientKey lbody up ca).cookie = ca
    ∧ (apiLoginB apiKey clientKey lbody genId up cb).response
        = some ⟨403, errBody "Unauthorized: Invalid API key"⟩
    ∧ (apiLoginB apiKey clientKey lbody genId up cb).upstreamCalled = false
    ∧ (apiLoginB apiKey clientKey lbody genId up cb).cookie = cb
    ∧ (apiOdooA apiKey clientKey obody up ca).response
        = some ⟨403, errBody "Unauthorized: Invalid API key"⟩
    ∧ (apiOdooA apiKey clientKey obody up ca).upstreamCalled = false
    ∧ (apiOdooB apiKey clientKey odooUrlEnv obody genId up cb).response
        = some ⟨403, errBody "Unauthorized: Invalid API key"⟩
    ∧ (apiOdooB apiKey clientKey odooUrlEnv obody genId up cb).upstreamCalled = false := by
  have hv : verifyApiKey apiKey clientKey = false := by
    rcases h with h | ⟨s, k, hs, hk, hne⟩
    · rw [h]; exact verifyApiKey_absent apiKey
    · rw [hs, hk]; exact verifyApiKey_mismatch k s hne
  refine ⟨?_, ?_, ?_, ?_, ?_, ?_, ?_, ?_, ?_, ?_⟩ <;>
    simp [apiLoginA, apiLoginB, apiOdooA, apiOdooB, hv]

/-- C1 witness: a concrete mismatching key is answered 403 by the variant
A login handler. -/
theorem C1_invalid_key_rejected_witness :
    (apiLoginA (some "secret") (some "wrong") ⟨none, none⟩
        (AxiosResult.errNetwork "boom") none).response
      = some ⟨403, errBody "Unauthorized: Invalid API key"⟩ :=
  (C1_invalid_key_rejected (some "secret") (some "wrong") ⟨none, none⟩
    ⟨none, none, none, none, none, none, none⟩ 7 (AxiosResult.errNetwork "boom")
    (some "http x") none none
    (Or.inr ⟨"wrong", "secret", rfl, rfl, by decide⟩)).1

/-- C10: when the API_KEY environment variable is absent, every request to
POST /api/login and POST /api/odoo (both variants) is rejected 403 with no
upstream call, whatever X-API-Key value the caller presents. -/
theorem C10_unset_secret_never_open (clientKey : Option String)
    (lbody : LoginBody) (obody : OdooBody) (genId : Int) (up : AxiosResult)
    (odooUrlEnv : Option String) (ca : Option String) (cb : Option (List String)) :
    (apiLoginA none clientKey lbody up ca).response
        = some ⟨403, errBody "Unauthorized: Invalid API key"⟩
    ∧ (apiLoginA none clientKey lbody up ca).upstreamCalled = false
    ∧ (apiLoginB none clientKey lbody genId up cb).response
        = some ⟨403, errBody "Unauthorized: Invalid API key"⟩
    ∧ (apiLoginB none clientKey lbody genId up cb).upstreamCalled = false
    ∧ (apiOdooA none clientKey obody up ca).response
        = some ⟨403, errBody "Unauthorized: Invalid API key"⟩
    ∧ (apiOdooA none clientKey obody up ca).upstreamCalled = false
    ∧ (apiOdooB none clientKey odooUrlEnv obody genId up cb).response
        = some ⟨403, errBody "Unauthorized: Invalid API key"⟩
    ∧ (apiOdooB none clientKey odooUrlEnv obody genId up cb).upstreamCalled = false := by
  have hv := verifyApiKey_unset clientKey
  refine ⟨?_, ?_, ?_, ?_, ?_, ?_, ?_, ?_⟩ <;>
    simp [apiLoginA, apiLoginB, apiOdooA, apiOdooB, hv]

/-- C2 counterexample: a login whose upstream 200 body is
obj result (obj uid 0) does carry a uid in its result, yet variant A
answers 500 (the code tests JavaScript truthiness of result.uid, and 0 is
falsy), not 200 with body result 0 as the claim requires. -/
theorem C2_counterexample :
    (((Json.obj [("result", Json.obj [("uid", Json.num 0)])]).fieldOpt
        "result").getD Json.null).fieldOpt "uid" = some (Json.num 0)
    ∧ statusOf (apiLoginA (some "secret") (some "secret")
        ⟨some ⟨some (.str "http x"), some (.str "db"), some (.str "u"), some (.str "p")⟩, none⟩
        (AxiosResult.ok 200 (.obj [("result", .obj [("uid", .num 0)])]) none) none).response
      = some 500
    ∧ statusOf (apiLoginA (some "secret") (some "secret")
        ⟨some ⟨some (.str "http x"), some (.str "db"), some (.str "u"), some (.str "p")⟩, none⟩
        (AxiosResult.ok 200 (.obj [("result", .obj [("uid", .num 0)])]) none) none).response
      ≠ some 200 :=
  ⟨rfl, rfl, by decide⟩

/-- C2 amended: for every login request with a valid key and all required
configuration fields, if the upstream 2xx body has a truthy result object
carrying a truthy uid (in particular any nonzero numeric identifier), the
caller receives 200 with body exactly obj result uid, in both variants; a
falsy uid such as 0 is treated as a failed login instead. -/
theorem C2_login_returns_uid (apiKey clientKey : Option String)
    (cfg : OdooConfig) (i : Option Json) (genId : Int) (st : Nat)
    (data r uid : Json) (sc sc2 : Option (List String))
    (ca : Option String) (cb : Option (List String))
    (hv : verifyApiKey apiKey clientKey = true)
    (hdb : optTruthy cfg.db = true) (husr : optTruthy cfg.username = true)
    (hpw : optTruthy cfg.password = true) (hurl : optTruthy cfg.url = true)
    (hdt : data.truthy = true)
    (hres : data.fieldOpt "result" = some r) (hrt : r.truthy = true)
    (huid : r.fieldOpt "uid" = some uid) (hut : uid.truthy = true) :
    (apiLoginA apiKey clientKey ⟨some cfg, i⟩ (.ok st data sc) ca).response
        = some ⟨200, .obj [("result", uid)]⟩
    ∧ (apiLoginB apiKey clientKey ⟨some cfg, i⟩ genId (.ok st data sc2) cb).response
        = some ⟨200, .obj [("result", uid)]⟩ := by
  have hnn : data.isNull = false := isNull_false_of_truthy data hdt
  constructor <;>
    simp [apiLoginA, apiLoginB, optTruthy_some, hv, hdb, husr, hpw, hurl, hdt, hnn, hres,
      hrt, huid, hut]

/-- C2 witness: the concrete uid 7 round trip of the spec example. -/
theorem C2_login_returns_uid_witness :
    (apiLoginA (some "secret") (some "secret")
        ⟨some ⟨some (.str "http x"), some (.str "db"), some (.str "u"), some (.str "p")⟩, none⟩
        (AxiosResult.ok 200 (.obj [("result", .obj [("uid", .num 7)])])
          (some ["sid=abc; Path=/"])) none).response
      = some ⟨200, .obj [("result", .num 7)]⟩ :=
  (C2_login_returns_uid (some "secret") (some "secret")
    ⟨some (.str "http x"), some (.str "db"), some (.str "u"), some (.str "p")⟩ none 42 200
    (.obj [("result", .obj [("uid", .num 7)])]) (.obj [("uid", .num 7)]) (.num 7)
    (some ["sid=abc; Path=/"]) none none none
    rfl rfl rfl rfl rfl rfl rfl rfl rfl rfl).1

/-- Helper: after a resolved (2xx) upstream login call, the variant A
cookie state is captureA of the set-cookie header, whichever response body
came back. -/
lemma apiLoginA_ok_cookie (apiKey clientKey : Option String) (cfg : OdooConfig)
    (i : Option Json) (st : Nat) (data : Json) (sc : Option (List String))
    (ca : Option String)
    (hv : verifyApiKey apiKey clientKey = true)
    (hdb : optTruthy cfg.db = true) (husr : optTruthy cfg.username = true)
    (hpw : optTruthy cfg.password = true) (hurl : optTruthy cfg.url = true) :
    (apiLoginA apiKey clientKey ⟨some cfg, i⟩ (.ok st data sc) ca).cookie = captureA sc ca := by
  simp [apiLoginA, hv, hdb, husr, hpw, hurl]
  split
  · rfl
  · split
    · rfl
    · split <;> rfl

/-- Helper: after a resolved (2xx) upstream login call, the variant B
cookie state is captureB of the set-cookie header, whichever response body
came back. -/
lemma apiLoginB_ok_cookie (apiKey clientKey : Option String) (cfg : OdooConfig)
    (i : Option Json) (genId : Int) (st : Nat) (data : Json) (sc : Option (List String))
    (cb : Option (List String))
    (hv : verifyApiKey apiKey clientKey = true)
    (hdb : optTruthy cfg.db = true) (husr : optTruthy cfg.username = true)
    (hpw : optTruthy cfg.password = true) :
    (apiLoginB apiKey clientKey ⟨some cfg, i⟩ genId (.ok st data sc) cb).cookie
      = captureB sc cb := by
  simp [apiLoginB, hv, hdb, husr, hpw]
  split <;> rfl

/-- C3 counterexample: variant B (src/unnamed/part_000 line 71) stores the
raw Set-Cookie list unchanged; with header list sid=abc; Path=/ the stored
token keeps the attribute suffix instead of equalling the normalization
sid=abc required by the claim. -/
theorem C3_counterexample :
    (apiLoginB (some "secret") (some "secret")
        ⟨some ⟨none, some (.str "db"), some (.str "u"), some (.str "p")⟩, none⟩ 42
        (AxiosResult.ok 200 (.obj [("result", .obj [("uid", .num 7)])])
          (some ["sid=abc; Path=/"])) none).cookie = some ["sid=abc; Path=/"]
    ∧ normalizeSetCookie ["sid=abc; Path=/"] = "sid=abc"
    ∧ (apiLoginB (some "secret") (some "secret")
        ⟨some ⟨none, some (.str "db"), some (.str "u"), some (.str "p")⟩, none⟩ 42
        (AxiosResult.ok 200 (.obj [("result", .obj [("uid", .num 7)])])
          (some ["sid=abc; Path=/"])) none).cookie
      ≠ some [normalizeSetCookie ["sid=abc; Path=/"]] :=
  ⟨rfl, rfl, by decide⟩

/-- C3 amended: for every upstream login response carrying a Set-Cookie
header, variant A stores the normalization of that header (each cookie
truncated at its first semicolon, primary pairs joined), unconditionally
replacing any prior value; variant B instead stores the raw Set-Cookie
list unchanged, attribute suffixes included, also unconditionally. -/
theorem C3_cookie_storage_by_variant (apiKey clientKey : Option String)
    (cfg : OdooConfig) (i : Option Json) (genId : Int) (st : Nat)
    (data : Json) (l : List String) (ca : Option String) (cb : Option (List String))
    (hv : verifyApiKey apiKey clientKey = true)
    (hdb : optTruthy cfg.db = true) (husr : optTruthy cfg.username = true)
    (hpw : optTruthy cfg.password = true) (hurl : optTruthy cfg.url = true) :
    (apiLoginA apiKey clientKey ⟨some cfg, i⟩ (.ok st data (some l)) ca).cookie
        = some (normalizeSetCookie l)
    ∧ (apiLoginB apiKey clientKey ⟨some cfg, i⟩ genId (.ok st data (some l)) cb).cookie
        = some l := by
  refine ⟨?_, ?_⟩
  · rw [apiLoginA_ok_cookie apiKey clientKey cfg i st data (some l) ca hv hdb husr hpw hurl]
    rfl
  · rw [apiLoginB_ok_cookie apiKey clientKey cfg i genId st data (some l) cb hv hdb husr hpw]
    rfl

/-- C3 witness: concrete storage of a two-cookie header in both variants. -/
theorem C3_cookie_storage_by_variant_witness :
    (apiLoginA (some "secret") (some "secret")
        ⟨some ⟨some (.str "http x"), some (.str "db"), some (.str "u"), some (.str "p")⟩, none⟩
        (AxiosResult.ok 200 (.obj [("result", .obj [("uid", .num 7)])])
          (some ["a=1; Path=/", "b=2; HttpOnly"])) (some "old")).cookie
      = some (normalizeSetCookie ["a=1; Path=/", "b=2; HttpOnly"]) :=
  (C3_cookie_storage_by_variant (some "secret") (some "secret")
    ⟨some (.str "http x"), some (.str "db"), some (.str "u"), some (.str "p")⟩ none 42 200
    (.obj [("result", .obj [("uid", .num 7)])]) ["a=1; Path=/", "b=2; HttpOnly"]
    (some "old") none rfl rfl rfl rfl rfl).1

/-- C4 counterexample: an upstream 200 body that is a well-formed
authentication-error envelope with no uid, but carrying a Set-Cookie
header, does update the Session Store in variant A: the cookie capture at
src/server.js lines 87-94 runs before the uid check, so the prior value
none is overwritten with sid=x while the caller is answered 401. -/
theorem C4_counterexample :
    (Json.obj [("error", Json.obj [("message", Json.str "bad creds")])]).fieldOpt "result"
      = none
    ∧ (apiLoginA (some "secret") (some "secret")
        ⟨some ⟨some (.str "http x"), some (.str "db"), some (.str "u"), some (.str "p")⟩, none⟩
        (AxiosResult.ok 200 (.obj [("error", .obj [("message", .str "bad creds")])])
          (some ["sid=x; HttpOnly"])) none).cookie = some "sid=x"
    ∧ (apiLoginA (some "secret") (some "secret")
        ⟨some ⟨some (.str "http x"), some (.str "db"), some (.str "u"), some (.str "p")⟩, none⟩
        (AxiosResult.ok 200 (.obj [("error", .obj [("message", .str "bad creds")])])
          (some ["sid=x; HttpOnly"])) none).cookie ≠ none
    ∧ statusOf (apiLoginA (some "secret") (some "secret")
        ⟨some ⟨some (.str "http x"), some (.str "db"), some (.str "u"), some (.str "p")⟩, none⟩
        (AxiosResult.ok 200 (.obj [("error", .obj [("message", .str "bad creds")])])
          (some ["sid=x; HttpOnly"])) none).response = some 401 :=
  ⟨rfl, rfl, by decide, rfl⟩

/-- C4 amended: the Session Store is updated exactly for 2xx upstream
login responses carrying a Set-Cookie header, regardless of whether the
body carries a user identifier; when the 2xx response has no Set-Cookie
header, and on every failed upstream call, the stored token is left
unchanged (both variants; variant A stores the normalization, variant B
the raw list). -/
theorem C4_store_update_rule (apiKey clientKey : Option String)
    (cfg : OdooConfig) (i : Option Json) (genId : Int) (st s : Nat)
    (data d : Json) (l : List String) (m : String)
    (ca : Option String) (cb : Option (List String))
    (hv : verifyApiKey apiKey clientKey = true)
    (hdb : optTruthy cfg.db = true) (husr : optTruthy cfg.username = true)
    (hpw : optTruthy cfg.password = true) (hurl : optTruthy cfg.url = true) :
    (apiLoginA apiKey clientKey ⟨some cfg, i⟩ (.ok st data none) ca).cookie = ca
    ∧ (apiLoginA apiKey clientKey ⟨some cfg, i⟩ (.ok st data (some l)) ca).cookie
        = some (normalizeSetCookie l)
    ∧ (apiLoginA apiKey clientKey ⟨some cfg, i⟩ (.errResponse s d) ca).cookie = ca
    ∧ (apiLoginA apiKey clientKey ⟨some cfg, i⟩ (.errNetwork m) ca).cookie = ca
    ∧ (apiLoginB apiKey clientKey ⟨some cfg, i⟩ genId (.ok st data none) cb).cookie = cb
    ∧ (apiLoginB apiKey clientKey ⟨some cfg, i⟩ genId (.ok st data (some l)) cb).cookie
        = some l
    ∧ (apiLoginB apiKey clientKey ⟨some cfg, i⟩ genId (.errResponse s d) cb).cookie = cb
    ∧ (apiLoginB apiKey clientKey ⟨some cfg, i⟩ genId (.errNetwork m) cb).cookie = cb := by
  refine ⟨?_, ?_, ?_, ?_, ?_, ?_, ?_, ?_⟩
  · rw [apiLoginA_ok_cookie apiKey clientKey cfg i st data none ca hv hdb husr hpw hurl]; rfl
  · rw [apiLoginA_ok_cookie apiKey clientKey cfg i st data (some l) ca hv hdb husr hpw hurl]
    rfl
  · simp [apiLoginA, hv, hdb, husr, hpw, hurl]
    split <;> rfl
  · simp [apiLoginA, hv, hdb, husr, hpw, hurl]
  · rw [apiLoginB_ok_cookie apiKey clientKey cfg i genId st data none cb hv hdb husr hpw]; rfl
  · rw [apiLoginB_ok_cookie apiKey clientKey cfg i genId st data (some l) cb hv hdb husr hpw]
    rfl
  · simp [apiLoginB, hv, hdb, husr, hpw]
    split <;> rfl
  · simp [apiLoginB, hv, hdb, husr, hpw]

/-- C4 witness: a 2xx response without a Set-Cookie header leaves a
previously stored variant A token in place. -/
theorem C4_store_update_rule_witness :
    (apiLoginA (some "secret") (some "secret")
        ⟨some ⟨some (.str "http x"), some (.str "db"), some (.str "u"), some (.str "p")⟩, none⟩
        (AxiosResult.ok 200 (.obj [("result", .obj [("uid", .num 7)])]) none)
        (some "old=tok")).cookie = some "old=tok" :=
  (C4_store_update_rule (some "secret") (some "secret")
    ⟨some (.str "http x"), some (.str "db"), some (.str "u"), some (.str "p")⟩ none 42 200 404
    (.obj [("result", .obj [("uid", .num 7)])]) (.obj []) ["x=y"] "boom"
    (some "old=tok") none rfl rfl rfl rfl rfl).1

/-- Helper: truthiness of an absent string is false. -/
lemma strOptTruthy_none : strOptTruthy none = false := rfl

/-- C5: for every forwarded call on POST /api/odoo that passes validation,
when the upstream transport resolves with a success status the caller
receives 200 and the upstream JSON-RPC body verbatim, in both variants. -/
theorem C5_forward_verbatim (apiKey clientKey : Option String) (obody : OdooBody)
    (genId : Int) (st : Nat) (data : Json) (sc : Option (List String))
    (odooUrlEnv ca : Option String) (cb : Option (List String))
    (hv : verifyApiKey apiKey clientKey = true)
    (hca : strOptTruthy ca = true)
    (hurlA : odooUrlMissingA obody = false)
    (henv : strOptTruthy odooUrlEnv = true)
    (huid : optTruthy obody.uid = true) :
    (apiOdooA apiKey clientKey obody (.ok st data sc) ca).response = some ⟨200, data⟩
    ∧ (apiOdooB apiKey clientKey odooUrlEnv obody genId (.ok st data sc) cb).response
        = some ⟨200, data⟩ := by
  constructor <;> simp [apiOdooA, apiOdooB, hv, hca, hurlA, henv, huid]

/-- C5 witness: a concrete JSON-RPC result list is relayed unmodified. -/
theorem C5_forward_verbatim_witness :
    (apiOdooA (some "secret") (some "secret")
        ⟨some ⟨some (.str "http x"), none, none, none⟩, some (.str "res.partner"),
          some (.str "search_read"), some (.arr []), some (.obj []), some (.num 7), none⟩
        (AxiosResult.ok 200
          (.obj [("jsonrpc", .str "2.0"), ("result", .arr [.num 1, .num 2])]) none)
        (some "sid=abc")).response
      = some ⟨200, .obj [("jsonrpc", .str "2.0"), ("result", .arr [.num 1, .num 2])]⟩ :=
  (C5_forward_verbatim (some "secret") (some "secret")
    ⟨some ⟨some (.str "http x"), none, none, none⟩, some (.str "res.partner"),
      some (.str "search_read"), some (.arr []), some (.obj []), some (.num 7), none⟩
    42 200 (.obj [("jsonrpc", .str "2.0"), ("result", .arr [.num 1, .num 2])]) none
    (some "http x") (some "sid=abc") none rfl rfl rfl rfl rfl).1

/-- C6 counterexample: a login whose upstream answers 502 with the JSON
body null receives no error response at all: the catch block reads
null.error (src/server.js line 113), the TypeError has no enclosing try,
and the request is left unanswered, so the caller does not receive a
500-class or upstream-status response (the token is still unchanged). -/
theorem C6_counterexample :
    (apiLoginA (some "secret") (some "secret")
        ⟨some ⟨some (.str "http x"), some (.str "db"), some (.str "u"), some (.str "p")⟩, none⟩
        (AxiosResult.errResponse 502 Json.null) none).response = none
    ∧ (apiLoginA (some "secret") (some "secret")
        ⟨some ⟨some (.str "http x"), some (.str "db"), some (.str "u"), some (.str "p")⟩, none⟩
        (AxiosResult.errResponse 502 Json.null) none).upstreamCalled = true
    ∧ (apiLoginA (some "secret") (some "secret")
        ⟨some ⟨some (.str "http x"), some (.str "db"), some (.str "u"), some (.str "p")⟩, none⟩
        (AxiosResult.errResponse 502 Json.null) none).cookie = none :=
  ⟨rfl, rfl, rfl⟩

/-- C6 amended: for every login request passing validation, a transport
failure is answered 500 and a non-2xx upstream status is relayed as the
response status whenever the non-2xx JSON body is not null; when that body
is JSON null the catch block itself throws and no response is sent.  In
every failure case the stored session token is unchanged, in both
variants, and the single axios call is made once, so no retry exists. -/
theorem C6_login_failure_keeps_store (apiKey clientKey : Option String)
    (cfg : OdooConfig) (i : Option Json) (genId : Int) (s : Nat) (d : Json) (m : String)
    (ca : Option String) (cb : Option (List String))
    (hv : verifyApiKey apiKey clientKey = true)
    (hdb : optTruthy cfg.db = true) (husr : optTruthy cfg.username = true)
    (hpw : optTruthy cfg.password = true) (hurl : optTruthy cfg.url = true)
    (hd : d.isNull = false) :
    statusOf (apiLoginA apiKey clientKey ⟨some cfg, i⟩ (.errNetwork m) ca).response = some 500
    ∧ (apiLoginA apiKey clientKey ⟨some cfg, i⟩ (.errNetwork m) ca).cookie = ca
    ∧ statusOf (apiLoginA apiKey clientKey ⟨some cfg, i⟩ (.errResponse s d) ca).response
        = some s
    ∧ (apiLoginA apiKey clientKey ⟨some cfg, i⟩ (.errResponse s d) ca).cookie = ca
    ∧ (apiLoginA apiKey clientKey ⟨some cfg, i⟩ (.errResponse s Json.null) ca).response = none
    ∧ (apiLoginA apiKey clientKey ⟨some cfg, i⟩ (.errResponse s Json.null) ca).cookie = ca
    ∧ statusOf (apiLoginB apiKey clientKey ⟨some cfg, i⟩ genId (.errNetwork m) cb).response
        = some 500
    ∧ (apiLoginB apiKey clientKey ⟨some cfg, i⟩ genId (.errNetwork m) cb).cookie = cb
    ∧ statusOf (apiLoginB apiKey clientKey ⟨some cfg, i⟩ genId (.errResponse s d) cb).response
        = some s
    ∧ (apiLoginB apiKey clientKey ⟨some cfg, i⟩ genId (.errResponse s d) cb).cookie = cb
    ∧ (apiLoginB apiKey clientKey ⟨some cfg, i⟩ genId (.errResponse s Json.null) cb).response
        = none
    ∧ (apiLoginB apiKey clientKey ⟨some cfg, i⟩ genId (.errResponse s Json.null) cb).cookie
        = cb := by
  refine ⟨?_, ?_, ?_, ?_, ?_, ?_, ?_, ?_, ?_, ?_, ?_, ?_⟩ <;>
    simp [apiLoginA, apiLoginB, hv, hdb, husr, hpw, hurl, hd, statusOf, Json.isNull_null]

/-- C6 witness: a concrete upstream timeout on login yields 500 with the
empty store left empty. -/
theorem C6_login_failure_keeps_store_witness :
    statusOf (apiLoginA (some "secret") (some "secret")
        ⟨some ⟨some (.str "http x"), some (.str "db"), some (.str "u"), some (.str "p")⟩, none⟩
        (AxiosResult.errNetwork "timeout of 10000ms exceeded") none).response = some 500 :=
  (C6_login_failure_keeps_store (some "secret") (some "secret")
    ⟨some (.str "http x"), some (.str "db"), some (.str "u"), some (.str "p")⟩ none 42 404
    (.obj []) "timeout of 10000ms exceeded" none none rfl rfl rfl rfl rfl rfl).1

/-- C7 counterexample: a variant B forwarded call made with no stored
token (valid key, ODOO_URL set, uid supplied) whose upstream rejection
carries the JSON body null follows neither allowed policy: upstream is
contacted, and its rejection is not surfaced because the catch block reads
null.error (src/unnamed/part_000 line 160) and throws, leaving the request
unanswered. -/
theorem C7_counterexample :
    (apiOdooB (some "secret") (some "secret") (some "http x")
        ⟨some ⟨some (.str "http x"), none, none, none⟩, some (.str "res.partner"),
          some (.str "read"), some (.arr []), some (.obj []), some (.num 7), none⟩ 42
        (AxiosResult.errResponse 401 Json.null) none).upstreamCalled = true
    ∧ (apiOdooB (some "secret") (some "secret") (some "http x")
        ⟨some ⟨some (.str "http x"), none, none, none⟩, some (.str "res.partner"),
          some (.str "read"), some (.arr []), some (.obj []), some (.num 7), none⟩ 42
        (AxiosResult.errResponse 401 Json.null) none).response = none :=
  ⟨rfl, rfl⟩

/-- C7 amended: a forwarded call with no stored token is deterministic in
each variant: variant A answers the NoActiveSession 401 without contacting
upstream; variant B forwards the call without a Cookie header and
surfaces the upstream outcome whenever it answers at all, namely 200 with
the verbatim body on success and the upstream status on a rejection whose
JSON body is not null, while a rejection with a JSON-null body makes the
catch block throw and no response is sent. -/
theorem C7_no_session_policy (apiKey clientKey : Option String) (obody : OdooBody)
    (genId : Int) (up : AxiosResult) (odooUrlEnv : Option String)
    (st s : Nat) (data d : Json) (sc : Option (List String))
    (hv : verifyApiKey apiKey clientKey = true)
    (henv : strOptTruthy odooUrlEnv = true)
    (huid : optTruthy obody.uid = true)
    (hd : d.isNull = false) :
    (apiOdooA apiKey clientKey obody up none).response
        = some ⟨401, errBody "Unauthorized: No active Odoo session. Please log in."⟩
    ∧ (apiOdooA apiKey clientKey obody up none).upstreamCalled = false
    ∧ (apiOdooB apiKey clientKey odooUrlEnv obody genId up none).sentCookie = none
    ∧ (apiOdooB apiKey clientKey odooUrlEnv obody genId up none).upstreamCalled = true
    ∧ (apiOdooB apiKey clientKey odooUrlEnv obody genId (.ok st data sc) none).response
        = some ⟨200, data⟩
    ∧ statusOf (apiOdooB apiKey clientKey odooUrlEnv obody genId
        (.errResponse s d) none).response = some s
    ∧ (apiOdooB apiKey clientKey odooUrlEnv obody genId
        (.errResponse s Json.null) none).response = none := by
  refine ⟨?_, ?_, ?_, ?_, ?_, ?_, ?_⟩
  · simp [apiOdooA, hv, strOptTruthy_none]
  · simp [apiOdooA, hv, strOptTruthy_none]
  · cases up <;> (simp [apiOdooB, hv, henv, huid]; try (split <;> rfl))
  · cases up <;> (simp [apiOdooB, hv, henv, huid]; try (split <;> rfl))
  · simp [apiOdooB, hv, henv, huid]
  · simp [apiOdooB, hv, henv, huid, hd, statusOf]
  · simp [apiOdooB, hv, henv, huid, Json.isNull_null]

/-- C7 witness: a concrete no-session forwarded call is answered 401 by
variant A without an upstream call. -/
theorem C7_no_session_policy_witness :
    (apiOdooA (some "secret") (some "secret")
        ⟨some ⟨some (.str "http x"), none, none, none⟩, some (.str "res.partner"),
          some (.str "read"), some (.arr []), some (.obj []), some (.num 7), none⟩
        (AxiosResult.ok 200 (.obj []) none) none).response
      = some ⟨401, errBody "Unauthorized: No active Odoo session. Please log in."⟩ :=
  (C7_no_session_policy (some "secret") (some "secret")
    ⟨some ⟨some (.str "http x"), none, none, none⟩, some (.str "res.partner"),
      some (.str "read"), some (.arr []), some (.obj []), some (.num 7), none⟩
    42 (AxiosResult.ok 200 (.obj []) none) (some "http x") 200 404 (.obj []) (.obj [])
    none rfl rfl rfl rfl).1

/-- Helper: the login envelope variant A sends, for any upstream outcome,
has the constant correlation id 1 (src/server.js line 68). -/
lemma apiLoginA_payload (apiKey clientKey : Option String) (cfg : OdooConfig)
    (i : Option Json) (up : AxiosResult) (ca : Option String)
    (hv : verifyApiKey apiKey clientKey = true)
    (hdb : optTruthy cfg.db = true) (husr : optTruthy cfg.username = true)
    (hpw : optTruthy cfg.password = true) (hurl : optTruthy cfg.url = true) :
    (apiLoginA apiKey clientKey ⟨some cfg, i⟩ up ca).payload
      = some ⟨"2.0", "call",
          ⟨cfg.db.getD .null, cfg.username.getD .null, cfg.password.getD .null⟩, .num 1⟩ := by
  cases up with
  | ok st data sc =>
    simp [apiLoginA, hv, hdb, husr, hpw, hurl]
    split
    · rfl
    · split
      · rfl
      · split <;> rfl
  | errResponse s d =>
    simp [apiLoginA, hv, hdb, husr, hpw, hurl]
    split <;> rfl
  | errNetwork m => simp [apiLoginA, hv, hdb, husr, hpw, hurl]

/-- Helper: the login envelope variant B sends, for any upstream outcome,
has correlation id req.body.id or the generated fallback
(src/unnamed/part_000 line 57). -/
lemma apiLoginB_payload (apiKey clientKey : Option String) (cfg : OdooConfig)
    (i : Option Json) (genId : Int) (up : AxiosResult) (cb : Option (List String))
    (hv : verifyApiKey apiKey clientKey = true)
    (hdb : optTruthy cfg.db = true) (husr : optTruthy cfg.username = true)
    (hpw : optTruthy cfg.password = true) :
    (apiLoginB apiKey clientKey ⟨some cfg, i⟩ genId up cb).payload
      = some ⟨"2.0", "call",
          ⟨cfg.db.getD .null, cfg.username.getD .null, cfg.password.getD .null⟩,
          jsOr i (.num genId)⟩ := by
  cases up with
  | ok st data sc =>
    simp [apiLoginB, hv, hdb, husr, hpw]
    split <;> rfl
  | errResponse s d =>
    simp [apiLoginB, hv, hdb, husr, hpw]
    split <;> rfl
  | errNetwork m => simp [apiLoginB, hv, hdb, husr, hpw]

/-- C8 counterexample: a variant A login whose caller supplies the
correlation id 5 still sends the envelope with id 1 (the hardcoded id at
src/server.js line 68), so the id placed in the envelope is not the id
supplied by the caller. -/
theorem C8_counterexample :
    Option.map AuthPayload.id (apiLoginA (some "secret") (some "secret")
        ⟨some ⟨some (.str "http x"), some (.str "db"), some (.str "u"), some (.str "p")⟩,
          some (.num 5)⟩
        (AxiosResult.ok 200 (.obj [("result", .obj [("uid", .num 7)])]) none) none).payload
      = some (Json.num 1)
    ∧ ¬ (Json.num 1 = Json.num 5) :=
  ⟨rfl, by simp⟩

/-- C8 amended: in variant B the envelope id equals the caller-supplied id
when that id is truthy and is the generated value otherwise (a falsy
supplied id such as 0 is also replaced); in variant A the envelope id is
the constant 1 regardless of caller input. -/
theorem C8_correlation_id_by_variant (apiKey clientKey : Option String)
    (cfg : OdooConfig) (i : Option Json) (idt idf : Json) (genId : Int)
    (up : AxiosResult) (ca : Option String) (cb : Option (List String))
    (hv : verifyApiKey apiKey clientKey = true)
    (hdb : optTruthy cfg.db = true) (husr : optTruthy cfg.username = true)
    (hpw : optTruthy cfg.password = true) (hurl : optTruthy cfg.url = true)
    (hit : idt.truthy = true) (hif : idf.truthy = false) :
    Option.map AuthPayload.id (apiLoginA apiKey clientKey ⟨some cfg, i⟩ up ca).payload
        = some (Json.num 1)
    ∧ Option.map AuthPayload.id
        (apiLoginB apiKey clientKey ⟨some cfg, some idt⟩ genId up cb).payload = some idt
    ∧ Option.map AuthPayload.id
        (apiLoginB apiKey clientKey ⟨some cfg, none⟩ genId up cb).payload
        = some (Json.num genId)
    ∧ Option.map AuthPayload.id
        (apiLoginB apiKey clientKey ⟨some cfg, some idf⟩ genId up cb).payload
        = some (Json.num genId) := by
  refine ⟨?_, ?_, ?_, ?_⟩
  · rw [apiLoginA_payload apiKey clientKey cfg i up ca hv hdb husr hpw hurl]; rfl
  · rw [apiLoginB_payload apiKey clientKey cfg (some idt) genId up cb hv hdb husr hpw]
    simp [jsOr, hit]
  · rw [apiLoginB_payload apiKey clientKey cfg none genId up cb hv hdb husr hpw]; rfl
  · rw [apiLoginB_payload apiKey clientKey cfg (some idf) genId up cb hv hdb husr hpw]
    simp [jsOr, hif]

/-- C8 witness: variant B keeps a concrete caller id 5 in the envelope. -/
theorem C8_correlation_id_by_variant_witness :
    Option.map AuthPayload.id (apiLoginB (some "secret") (some "secret")
        ⟨some ⟨some (.str "http x"), some (.str "db"), some (.str "u"), some (.str "p")⟩,
          some (.num 5)⟩ 42
        (AxiosResult.ok 200 (.obj [("result", .obj [("uid", .num 7)])]) none) none).payload
      = some (Json.num 5) :=
  (C8_correlation_id_by_variant (some "secret") (some "secret")
    ⟨some (.str "http x"), some (.str "db"), some (.str "u"), some (.str "p")⟩ none
    (.num 5) (.num 0) 42
    (AxiosResult.ok 200 (.obj [("result", .obj [("uid", .num 7)])]) none) none none
    rfl rfl rfl rfl rfl rfl rfl).2.1

/-- C9 counterexample: in variant B a login request with a valid key whose
configuration bundle lacks the target address (url absent, db, username,
password present) is not answered 400: the handler only validates db,
username and password (src/unnamed/part_000 lines 33-37), builds the
target from the ODOO_URL environment variable without a check, and
attempts the upstream call, here failing at transport for a 500. -/
theorem C9_counterexample :
    (apiLoginB (some "secret") (some "secret")
        ⟨some ⟨none, some (.str "db"), some (.str "u"), some (.str "p")⟩, none⟩ 42
        (AxiosResult.errNetwork "getaddrinfo ENOTFOUND undefined") none).upstreamCalled = true
    ∧ statusOf (apiLoginB (some "secret") (some "secret")
        ⟨some ⟨none, some (.str "db"), some (.str "u"), some (.str "p")⟩, none⟩ 42
        (AxiosResult.errNetwork "getaddrinfo ENOTFOUND undefined") none).response = some 500
    ∧ statusOf (apiLoginB (some "secret") (some "secret")
        ⟨some ⟨none, some (.str "db"), some (.str "u"), some (.str "p")⟩, none⟩ 42
        (AxiosResult.errNetwork "getaddrinfo ENOTFOUND undefined") none).response
      ≠ some 400 :=
  ⟨rfl, rfl, by decide⟩

/-- C9 amended: in variant A a valid-key login missing any of url, db,
username or password is answered 400 with no upstream call; in variant B a
valid-key login missing any of db, username or password is answered 400
with no upstream call, but the target address is not a per-request
required field there: with db, username and password present the upstream
call is attempted whatever the url field holds. -/
theorem C9_missing_fields_by_variant (apiKey clientKey : Option String)
    (genId : Int) (up : AxiosResult) (ca : Option String) (cb : Option (List String))
    (hv : verifyApiKey apiKey clientKey = true) :
    (∀ lbody : LoginBody,
      (lbody.odooConfig = none
        ∨ ∃ cfg, lbody.odooConfig = some cfg
            ∧ (optTruthy cfg.db = false ∨ optTruthy cfg.username = false
               ∨ optTruthy cfg.password = false ∨ optTruthy cfg.url = false)) →
      statusOf (apiLoginA apiKey clientKey lbody up ca).response = some 400
      ∧ (apiLoginA apiKey clientKey lbody up ca).upstreamCalled = false)
    ∧ (∀ lbody : LoginBody,
      (lbody.odooConfig = none
        ∨ ∃ cfg, lbody.odooConfig = some cfg
            ∧ (optTruthy cfg.db = false ∨ optTruthy cfg.username = false
               ∨ optTruthy cfg.password = false)) →
      statusOf (apiLoginB apiKey clientKey lbody genId up cb).response = some 400
      ∧ (apiLoginB apiKey clientKey lbody genId up cb).upstreamCalled = false)
    ∧ (∀ (cfg : OdooConfig) (i : Option Json),
      optTruthy cfg.db = true → optTruthy cfg.username = true →
      optTruthy cfg.password = true →
      (apiLoginB apiKey clientKey ⟨some cfg, i⟩ genId up cb).upstreamCalled = true) := by
  refine ⟨?_, ?_, ?_⟩
  · intro lbody h
    rcases h with h | ⟨cfg, hcfg, hf | hf | hf | hf⟩ <;>
      simp [apiLoginA, statusOf, hv, *]
  · intro lbody h
    rcases h with h | ⟨cfg, hcfg, hf | hf | hf⟩ <;>
      simp [apiLoginB, statusOf, hv, *]
  · intro cfg i hdb husr hpw
    cases up with
    | ok st data sc =>
      simp [apiLoginB, hv, hdb, husr, hpw]
      split <;> rfl
    | errResponse s d =>
      simp [apiLoginB, hv, hdb, husr, hpw]
      split <;> rfl
    | errNetwork m => simp [apiLoginB, hv, hdb, husr, hpw]

/-- C9 witness: a variant A login with the whole odooConfig absent is
answered 400 with no upstream call. -/
theorem C9_missing_fields_by_variant_witness :
    statusOf (apiLoginA (some "secret") (some "secret") ⟨none, none⟩
        (AxiosResult.ok 200 (.obj []) none) none).response = some 400
    ∧ (apiLoginA (some "secret") (some "secret") ⟨none, none⟩
        (AxiosResult.ok 200 (.obj []) none) none).upstreamCalled = false :=
  (C9_missing_fields_by_variant (some "secret") (some "secret") 42
    (AxiosResult.ok 200 (.obj []) none) none none rfl).1 ⟨none, none⟩ (Or.inl rfl)
